import Mathlib

/-!
Verification of the tool-call orchestration and request/response correlation
layer of the tradeschool web application.  The definitions below are a
shallow embedding of `src/app/api/call-events/route.ts`: the pending-request
correlator (the `pendingScreenshots` map together with the `PUT` handler and
the `setTimeout` expiry callback), the tool dispatch switch of the `POST`
handler, the `handleCaptureScreenshot` / `handleMarkStepComplete` handlers,
and the vision normalization pipeline (data-URL parsing, whitespace
stripping, base64 decode / re-encode).

Conventions of the embedding:
  * JavaScript string-or-undefined values are `Option String`; JS truthiness
    of such a value is `truthy` (undefined and the empty string are falsy).
  * Byte buffers (`Buffer`) are `List Nat` with every element `< 256`.
  * Node base64 decoding ignores characters outside the base64 alphabet
    (including padding and whitespace) and drops a trailing partial sextet,
    which is what `b64decode` does.
  * The asynchronous handler is split at its single suspension point: the
    part before `await new Promise(...)` produces an ordered event trace
    (data-channel send, waiter registration), and the part after the await
    is the pure function `processScreenshot` on the delivered payload.
-/

/-- JS truthiness for a string-or-undefined value: `undefined` and `""` are
falsy, every other string is truthy. -/
def truthy : Option String → Bool
  | none => false
  | some s => !(s == "")

/-- JS `a || b` on string-or-undefined values: yields `a` when `a` is
truthy, otherwise `b` (which may itself be undefined). -/
def jsOrS (a b : Option String) : Option String :=
  if truthy a then a else b

/-- JS `a || d` where `d` is a definite string (used for `answer || ''` and
`match[1] || 'image/jpeg'`). -/
def strOr (a : Option String) (d : String) : String :=
  if truthy a then a.getD "" else d

/-- The base64 alphabet in index order, as used by Node `Buffer`. -/
def b64chars : List Char :=
  "ABCDEFGHIJKLMNOPQRSTUVWXYZabcdefghijklmnopqrstuvwxyz0123456789+/".toList

/-- The base64 character encoding a sextet (out-of-range indices never arise
from encoding a byte buffer). -/
def b64char (n : Nat) : Char := b64chars.getD n 'A'

/-- First index of a character in a list, counting from `k`. -/
def findIdxFrom : List Char → Char → Nat → Option Nat
  | [], _, _ => none
  | x :: xs, c, k => if x = c then some k else findIdxFrom xs c (k + 1)

/-- The sextet value of a base64 alphabet character; `none` for every other
character (padding `=`, whitespace, ...), which Node base64 decoding
ignores. -/
def sextetOf (c : Char) : Option Nat := findIdxFrom b64chars c 0

/-- Encode a byte buffer to base64 with padding, as `buf.toString('base64')`
does. -/
def b64encode : List Nat → List Char
  | [] => []
  | [a] => [b64char (a / 4), b64char (a % 4 * 16), '=', '=']
  | [a, b] => [b64char (a / 4), b64char (a % 4 * 16 + b / 16), b64char (b % 16 * 4), '=']
  | a :: b :: c :: rest =>
      b64char (a / 4) :: b64char (a % 4 * 16 + b / 16) ::
      b64char (b % 16 * 4 + c / 64) :: b64char (c % 64) :: b64encode rest

/-- Regroup a stream of sextets into bytes, dropping a trailing lone
sextet, as Node base64 decoding does. -/
def groupDec : List Nat → List Nat
  | [] => []
  | [_] => []
  | [s1, s2] => [s1 * 4 + s2 / 16]
  | [s1, s2, s3] => [s1 * 4 + s2 / 16, s2 % 16 * 16 + s3 / 4]
  | s1 :: s2 :: s3 :: s4 :: rest =>
      (s1 * 4 + s2 / 16) :: (s2 % 16 * 16 + s3 / 4) :: (s3 % 4 * 64 + s4) :: groupDec rest

/-- Decode base64 text to a byte buffer, as `Buffer.from(s, 'base64')`
does: non-alphabet characters are ignored, a trailing partial group is
truncated to the bytes it fully determines. -/
def b64decode (cs : List Char) : List Nat := groupDec (cs.filterMap sextetOf)

/-- Whitespace in the sense of the JS regex `\s` (the class stripped from
the payload before decoding). -/
def isJsSpace (c : Char) : Bool :=
  let n := c.toNat
  n == 9 || n == 10 || n == 11 || n == 12 || n == 13 || n == 32 || n == 160 ||
  n == 5760 || (8192 ≤ n && n ≤ 8202) || n == 8232 || n == 8233 ||
  n == 8239 || n == 8287 || n == 12288 || n == 65279

/-- Line terminators, which the JS regex `.` (without the `s` flag) never
matches. -/
def isLineTerm (c : Char) : Bool :=
  c.toNat == 10 || c.toNat == 13 || c.toNat == 8232 || c.toNat == 8233

/-- The normalization step of the screenshot handler on a raw base64
payload: strip all JS whitespace, decode with Node semantics, reject an
empty decoded buffer, and re-encode the buffer to canonical base64
(`route.ts` lines 126-139). -/
def normalizePayload (cs : List Char) : Option (List Char) :=
  let stripped := cs.filter (fun c => !(isJsSpace c))
  let buf := b64decode stripped
  if buf.isEmpty then none else some (b64encode buf)

/-- JS `s.startsWith('data:')`, phrased over the character list so that it
evaluates by kernel reduction. -/
def hasDataScheme (s : String) : Bool := s.toList.take 5 == "data:".toList

/-- The strict data-URL pattern match `^data:([^;]+);base64,(.*)$` of the
screenshot handler, applied to a string that starts with `data:`.  The mime
group needs at least one non-semicolon character, the literal `;base64,`
must follow, and since `.` does not match line terminators and `$` anchors
at the end of input, a payload containing a line terminator fails the
match. -/
def parseDataUrl (s : String) : Option (String × String) :=
  let cs := s.toList.drop 5
  let mime := cs.takeWhile (fun c => c ≠ ';')
  let rest := cs.dropWhile (fun c => c ≠ ';')
  if mime.isEmpty then none
  else if rest.take 8 = ";base64,".toList then
    let payload := rest.drop 8
    if payload.any isLineTerm then none
    else some (String.mk mime, String.mk payload)
  else none

/-- The screenshot payload a waiter is resolved with (the argument of
`waiter.resolve` in the `PUT` handler). -/
structure ScreenshotData where
  imageBase64 : Option String
  question : Option String
  legacyAnswer : Option String
deriving DecidableEq

/-- Outcome of the post-await part of `handleCaptureScreenshot`: a string
returned to the agent, a thrown error message, or reaching the external
vision inference call with the canonical data URL (the network reply is
outside the embedding). -/
inductive VisionOutcome where
  | ret (answer : String)
  | failed (msg : String)
  | callInference (question : String) (dataUrl : String)
deriving DecidableEq

/-- The effective question
`question || screenshotData.question || 'What do you see?'`. -/
def effQuestion (q dq : Option String) : String :=
  if truthy q then q.getD "" else if truthy dq then dq.getD "" else "What do you see?"

/-- The tail of the vision pipeline shared by the data-URL and raw-base64
branches: normalize the payload and either fail or reach the inference call
with the rebuilt clean data URL. -/
def finishVision (effQ mime pay : String) : VisionOutcome :=
  match normalizePayload pay.toList with
  | none => VisionOutcome.failed "Invalid base64 payload for screenshot"
  | some canon =>
      VisionOutcome.callInference effQ ("data:" ++ mime ++ ";base64," ++ String.mk canon)

/-- The post-await part of `handleCaptureScreenshot` (`route.ts` lines
95-180): legacy-answer passthrough, mock fallback when no OpenAI key is
configured, missing-image check, data-URL parsing, payload normalization,
and finally the inference call. -/
def processScreenshot (openaiKey : Option String) (question : Option String)
    (data : ScreenshotData) : VisionOutcome :=
  let effQ := effQuestion question data.question
  if truthy data.imageBase64 = false ∧ truthy data.legacyAnswer = true then
    VisionOutcome.ret (data.legacyAnswer.getD "")
  else if truthy openaiKey = false then
    VisionOutcome.ret ("Mock vision answer to: " ++ effQ)
  else if truthy data.imageBase64 = false then
    VisionOutcome.failed "Missing imageBase64 in screenshot submission"
  else
    let raw := data.imageBase64.getD ""
    if hasDataScheme raw then
      match parseDataUrl raw with
      | none => VisionOutcome.failed "Unsupported data URL format"
      | some (mime, pay) => finishVision effQ (strOr (some mime) "image/jpeg") pay
    else
      finishVision effQ "image/jpeg" raw

/-- The `pendingScreenshots` registry: correlation id together with the
absolute deadline of its `setTimeout` timer. -/
abbrev Registry := List (String × Nat)

/-- `pendingScreenshots.get(id)` (the stored value abstracted to its
deadline). -/
def rget (id : String) (reg : Registry) : Option Nat :=
  (reg.find? (fun p => p.1 == id)).map Prod.snd

/-- `pendingScreenshots.set(id, ...)` at clock `now` with timer duration
`t`: the entry's deadline is `now + t`. -/
def rset (id : String) (deadline : Nat) (reg : Registry) : Registry :=
  (id, deadline) :: reg.filter (fun p => p.1 != id)

/-- `pendingScreenshots.delete(id)`. -/
def rdel (id : String) (reg : Registry) : Registry :=
  reg.filter (fun p => p.1 != id)

/-- The correlation ids currently registered. -/
def regKeys (reg : Registry) : List String := reg.map Prod.fst

/-- The JSON body of a `PUT /api/call-events` result submission. -/
structure PutBody where
  requestId : Option String
  imageBase64 : Option String
  question : Option String
  answer : Option String
  stepCompleted : Option Int
  success : Option Bool
deriving DecidableEq

/-- The response of the `PUT` handler (each constructor fixes the exact
JSON body the route returns). -/
inductive PutResp where
  | badRequest
  | stepAck (stepCompleted : Int) (success : Option Bool)
  | notFound
  | okResp
deriving DecidableEq

/-- HTTP status of a `PUT` response. -/
def putStatus : PutResp → Nat
  | PutResp.badRequest => 400
  | PutResp.stepAck _ _ => 200
  | PutResp.notFound => 404
  | PutResp.okResp => 200

/-- The `error` field of a `PUT` response body, when present. -/
def putErrorMsg : PutResp → Option String
  | PutResp.badRequest => some "requestId required"
  | PutResp.notFound => some "No pending request"
  | _ => none

/-- Observable actions of the `PUT` handler on a found waiter, in program
order: the registry delete, the `clearTimeout`, then the continuation
invocation. -/
inductive PutAction where
  | deleteKey (id : String)
  | clearTimer (id : String)
  | resolveWith (id : String) (data : ScreenshotData)
deriving DecidableEq

/-- The `PUT /api/call-events` handler (`route.ts` lines 329-366): reject a
falsy `requestId`; acknowledge a defined `stepCompleted` without touching
the registry; otherwise look up the waiter, return 404 when absent, and
when present delete it, clear its timer and resolve it with either the
submitted image or the legacy-answer shape. -/
def putHandler (reg : Registry) (b : PutBody) : PutResp × Registry × List PutAction :=
  if truthy b.requestId = false then (PutResp.badRequest, reg, [])
  else
    match b.stepCompleted with
    | some n => (PutResp.stepAck n b.success, reg, [])
    | none =>
      let id := b.requestId.getD ""
      match rget id reg with
      | none => (PutResp.notFound, reg, [])
      | some _ =>
        let data : ScreenshotData :=
          if truthy b.imageBase64 then
            { imageBase64 := b.imageBase64, question := b.question, legacyAnswer := none }
          else
            { imageBase64 := some "", question := b.question,
              legacyAnswer := some (strOr b.answer "") }
        (PutResp.okResp, rdel id reg,
         [PutAction.deleteKey id, PutAction.clearTimer id, PutAction.resolveWith id data])

/-- The `setTimeout` expiry callback of a registered waiter (`route.ts`
lines 88-91), observed at clock `now`: it deletes the id and rejects the
continuation with the timeout error.  The guard `deadline ≤ now` embeds the
platform guarantee that a timer never fires before its delay has elapsed;
once fired, the callback runs unconditionally. -/
def fireTimeout (now : Nat) (id : String) (reg : Registry) : Registry × Option String :=
  match rget id reg with
  | none => (reg, none)
  | some d =>
      if d ≤ now then (rdel id reg, some "capture_screenshot timed out")
      else (reg, none)

/-- The environment variables the handlers consult. -/
structure EnvConfig where
  livekitApiKey : Option String
  livekitApiSecret : Option String
  livekitUrl : Option String
  nextPublicLivekitUrl : Option String
  openaiApiKey : Option String
deriving DecidableEq

/-- The parameters a tool invocation may carry (string-typed, as the
handlers destructure them). -/
structure ToolParams where
  roomName : Option String
  targetIdentity : Option String
  question : Option String
  timeoutMs : Option Nat
  stepId : Option Int
deriving DecidableEq

/-- The call-context fallback: `message.call?.id` and
`message.call?.user?.id`. -/
structure CallCtx where
  callId : Option String
  userId : Option String
deriving DecidableEq

/-- An outbound command over the room data channel. -/
inductive RoomCmd where
  | captureScreenshot (question : String) (requestId : String)
  | markStepComplete (stepId : Int) (requestId : String)
deriving DecidableEq

/-- An observable handler event, in program order: a `sendData` over the
Room Transport, or a waiter registration in `pendingScreenshots`. -/
inductive HEvent where
  | sendData (roomName : String) (destinationIdentities : List String) (cmd : RoomCmd)
  | registerWaiter (requestId : String) (timeoutMs : Nat)
deriving DecidableEq

/-- Whether an event is a data-channel send. -/
def isSendEvent : HEvent → Bool
  | HEvent.sendData _ _ _ => true
  | _ => false

/-- The correlation id of a registration event, if any. -/
def regIdOf : HEvent → Option String
  | HEvent.registerWaiter id _ => some id
  | _ => none

/-- The LiveKit configuration check `!apiKey || !apiSecret || !wsUrl` where
`wsUrl = LIVEKIT_URL || NEXT_PUBLIC_LIVEKIT_URL`. -/
def lkConfigured (env : EnvConfig) : Bool :=
  truthy env.livekitApiKey && truthy env.livekitApiSecret &&
  (truthy env.livekitUrl || truthy env.nextPublicLivekitUrl)

/-- The pre-await part of `handleCaptureScreenshot` (`route.ts` lines
48-93): resolve `roomName`/`targetIdentity` with call-context fallback,
validate, check the LiveKit configuration, then send the
`capture_screenshot` command and register the waiter — in that program
order.  Returns the event trace and the timer duration. -/
def captureScreenshotSetup (env : EnvConfig) (requestId : String)
    (params : ToolParams) (ctx : CallCtx) : Except String (List HEvent × Nat) :=
  let roomName := jsOrS params.roomName ctx.callId
  let targetIdentity := jsOrS params.targetIdentity ctx.userId
  let timeoutMs := params.timeoutMs.getD 25000
  if ¬ (truthy roomName = true ∧ truthy params.question = true ∧ truthy targetIdentity = true) then
    Except.error "roomName, question, and targetIdentity are required for capture_screenshot"
  else if lkConfigured env = false then
    Except.error "LiveKit not configured"
  else
    Except.ok
      ([HEvent.sendData (roomName.getD "") [targetIdentity.getD ""]
          (RoomCmd.captureScreenshot (params.question.getD "") requestId),
        HEvent.registerWaiter requestId timeoutMs], timeoutMs)

/-- `handleMarkStepComplete` (`route.ts` lines 184-223): resolve and
validate the fields (`stepId === undefined` is the undefined check, so `0`
is accepted), check the LiveKit configuration, send exactly the
`mark_step_complete` command, and return the confirmation string — with no
waiter registration. -/
def handleMarkStepComplete (env : EnvConfig) (requestId : String)
    (params : ToolParams) (ctx : CallCtx) : Except String (List HEvent × String) :=
  let roomName := jsOrS params.roomName ctx.callId
  let targetIdentity := jsOrS params.targetIdentity ctx.userId
  match params.stepId with
  | none => Except.error "roomName, targetIdentity, and stepId are required for markStepComplete"
  | some s =>
    if ¬ (truthy roomName = true ∧ truthy targetIdentity = true) then
      Except.error "roomName, targetIdentity, and stepId are required for markStepComplete"
    else if lkConfigured env = false then
      Except.error "LiveKit not configured"
    else
      Except.ok
        ([HEvent.sendData (roomName.getD "") [targetIdentity.getD ""]
            (RoomCmd.markStepComplete s requestId)],
         "Step " ++ toString s ++ " marked complete")

/-- Result of the tool-dispatch switch of the `POST` handler, including the
`catch` that converts a thrown handler error into a 500 response
(`route.ts` lines 276-308). -/
inductive DispatchResult where
  | unknownTool (toolName : String)
  | toolFailed (msg : String)
  | screenshotAwait (events : List HEvent) (requestId : String) (timeoutMs : Nat)
  | completed (events : List HEvent) (result : String)
deriving DecidableEq

/-- The `POST` tool-dispatch switch: route by exact tool name over the
enumerated set, route handler errors to `toolFailed`, and unknown names to
`unknownTool`. -/
def dispatchTool (env : EnvConfig) (requestId : String) (toolName : String)
    (params : ToolParams) (ctx : CallCtx) : DispatchResult :=
  if toolName = "capture_screenshot" ∨ toolName = "captureScreenshot" then
    match captureScreenshotSetup env requestId params ctx with
    | Except.error m => DispatchResult.toolFailed m
    | Except.ok (evs, t) => DispatchResult.screenshotAwait evs requestId t
  else if toolName = "markStepComplete" then
    match handleMarkStepComplete env requestId params ctx with
    | Except.error m => DispatchResult.toolFailed m
    | Except.ok (evs, r) => DispatchResult.completed evs r
  else
    DispatchResult.unknownTool toolName

/-- The HTTP status the `POST` handler responds with for a dispatch
result (for `screenshotAwait` this is the status if the awaited delivery
eventually lets the handler succeed). -/
def dispatchStatus : DispatchResult → Nat
  | DispatchResult.unknownTool _ => 400
  | DispatchResult.toolFailed _ => 500
  | DispatchResult.screenshotAwait _ _ _ => 200
  | DispatchResult.completed _ _ => 200

/-- The `error` field of the `POST` response body, when present. -/
def dispatchErrorMsg : DispatchResult → Option String
  | DispatchResult.unknownTool n => some ("Unknown tool: " ++ n)
  | DispatchResult.toolFailed m => some ("Tool execution failed: " ++ m)
  | _ => none

/-- All data-channel sends a dispatch result performed. -/
def sentEvents : DispatchResult → List HEvent
  | DispatchResult.screenshotAwait evs _ _ => evs.filter isSendEvent
  | DispatchResult.completed evs _ => evs.filter isSendEvent
  | _ => []

/-- All correlation ids a dispatch result registered. -/
def registeredIds : DispatchResult → List String
  | DispatchResult.screenshotAwait evs _ _ => evs.filterMap regIdOf
  | DispatchResult.completed evs _ => evs.filterMap regIdOf
  | _ => []

/-- Whether a waiter registration occurs strictly before the first
data-channel send in an event trace (the ordering the specification
asserts). -/
def registeredBeforeSent (evs : List HEvent) : Bool :=
  match evs.findIdx? (fun e => regIdOf e != none), evs.findIdx? isSendEvent with
  | some i, some j => i < j
  | _, _ => false

/-! Helper lemmas shared by the claim theorems. -/

theorem truthy_some {s : String} (h : s ≠ "") : truthy (some s) = true := by
  simp [truthy, h]

theorem rget_rset (id : String) (d : Nat) (reg : Registry) : rget id (rset id d reg) = some d := by
  simp [rget, rset, List.find?]

theorem rget_rdel (id : String) (reg : Registry) : rget id (rdel id reg) = none := by
  simp only [rget, rdel, Option.map_eq_none', List.find?_eq_none]
  intro p hp
  have := List.of_mem_filter hp
  simpa using this

theorem count_keys_rset (id : String) (d : Nat) (reg : Registry) :
    (regKeys (rset id d reg)).count id = 1 := by
  simp only [regKeys, rset, List.map_cons, List.count_cons_self]
  have : List.count id (List.map Prod.fst (List.filter (fun p => p.1 != id) reg)) = 0 := by
    rw [List.count_eq_zero]
    intro hmem
    obtain ⟨p, hp, hfst⟩ := List.mem_map.mp hmem
    have := List.of_mem_filter hp
    simp [hfst] at this
  omega

theorem putHandler_resolved (reg : Registry) (b : PutBody) (id : String) (d : Nat)
    (hid : id ≠ "") (hrid : b.requestId = some id) (hstep : b.stepCompleted = none)
    (himg : truthy b.imageBase64 = true) (hget : rget id reg = some d) :
    putHandler reg b = (PutResp.okResp, rdel id reg,
      [PutAction.deleteKey id, PutAction.clearTimer id,
       PutAction.resolveWith id
         { imageBase64 := b.imageBase64, question := b.question, legacyAnswer := none }]) := by
  simp [putHandler, hrid, hstep, truthy_some hid, hget, himg]

theorem putHandler_notFound (reg : Registry) (b : PutBody) (id : String)
    (hid : id ≠ "") (hrid : b.requestId = some id) (hstep : b.stepCompleted = none)
    (hget : rget id reg = none) :
    putHandler reg b = (PutResp.notFound, reg, []) := by
  simp [putHandler, hrid, hstep, truthy_some hid, hget]

theorem fireTimeout_fires (reg : Registry) (id : String) (d m : Nat)
    (hget : rget id reg = some d) (hm : d ≤ m) :
    fireTimeout m id reg = (rdel id reg, some "capture_screenshot timed out") := by
  simp [fireTimeout, hget, hm]

theorem fireTimeout_not_early (reg r : Registry) (id msg : String) (m : Nat)
    (hfire : fireTimeout m id reg = (r, some msg)) :
    ∃ d, rget id reg = some d ∧ d ≤ m := by
  unfold fireTimeout at hfire
  split at hfire
  · simp at hfire
  next d hget =>
    by_cases hm : d ≤ m
    · exact ⟨d, hget, hm⟩
    · simp [hm] at hfire

theorem dispatch_unknown (env : EnvConfig) (reqId name : String) (params : ToolParams)
    (ctx : CallCtx) (h1 : name ≠ "capture_screenshot") (h2 : name ≠ "captureScreenshot")
    (h3 : name ≠ "markStepComplete") :
    dispatchTool env reqId name params ctx = DispatchResult.unknownTool name := by
  simp [dispatchTool, h1, h2, h3]

theorem markStep_ok (env : EnvConfig) (reqId : String) (params : ToolParams) (ctx : CallCtx)
    (s : Int) (hs : params.stepId = some s) (hlk : lkConfigured env = true)
    (hr : truthy (jsOrS params.roomName ctx.callId) = true)
    (ht : truthy (jsOrS params.targetIdentity ctx.userId) = true) :
    handleMarkStepComplete env reqId params ctx = Except.ok
      ([HEvent.sendData ((jsOrS params.roomName ctx.callId).getD "")
          [(jsOrS params.targetIdentity ctx.userId).getD ""]
          (RoomCmd.markStepComplete s reqId)],
       "Step " ++ toString s ++ " marked complete") := by
  simp [handleMarkStepComplete, hs, hr, ht, hlk]

theorem sextetOf_b64char : ∀ s, s < 64 → sextetOf (b64char s) = some s := by decide

theorem sextetOf_pad : sextetOf '=' = none := by decide

theorem b64decode_cons4 (c1 c2 c3 c4 : Char) (cs : List Char) (s1 s2 s3 s4 : Nat)
    (h1 : sextetOf c1 = some s1) (h2 : sextetOf c2 = some s2)
    (h3 : sextetOf c3 = some s3) (h4 : sextetOf c4 = some s4) :
    b64decode (c1 :: c2 :: c3 :: c4 :: cs) =
      (s1 * 4 + s2 / 16) :: (s2 % 16 * 16 + s3 / 4) :: (s3 % 4 * 64 + s4) :: b64decode cs := by
  simp [b64decode, List.filterMap_cons, h1, h2, h3, h4, groupDec]

theorem b64_roundtrip : ∀ b : List Nat, (∀ x ∈ b, x < 256) → b64decode (b64encode b) = b := by
  intro b
  induction b using b64encode.induct with
  | case1 => intro _; rfl
  | case2 a =>
    intro h
    have ha : a < 256 := h a (by simp)
    have h1 : sextetOf (b64char (a / 4)) = some (a / 4) := sextetOf_b64char _ (by omega)
    have h2 : sextetOf (b64char (a % 4 * 16)) = some (a % 4 * 16) := sextetOf_b64char _ (by omega)
    simp [b64encode, b64decode, List.filterMap_cons, h1, h2, sextetOf_pad, groupDec]
    omega
  | case3 a b =>
    intro h
    have ha : a < 256 := h a (by simp)
    have hb : b < 256 := h b (by simp)
    have h1 : sextetOf (b64char (a / 4)) = some (a / 4) := sextetOf_b64char _ (by omega)
    have h2 : sextetOf (b64char (a % 4 * 16 + b / 16)) = some (a % 4 * 16 + b / 16) :=
      sextetOf_b64char _ (by omega)
    have h3 : sextetOf (b64char (b % 16 * 4)) = some (b % 16 * 4) := sextetOf_b64char _ (by omega)
    simp [b64encode, b64decode, List.filterMap_cons, h1, h2, h3, sextetOf_pad, groupDec]
    omega
  | case4 a b c rest ih =>
    intro h
    have ha : a < 256 := h a (by simp)
    have hb : b < 256 := h b (by simp)
    have hc : c < 256 := h c (by simp)
    have ih2 := ih (fun x hx => h x (by simp [hx]))
    have h1 : sextetOf (b64char (a / 4)) = some (a / 4) := sextetOf_b64char _ (by omega)
    have h2 : sextetOf (b64char (a % 4 * 16 + b / 16)) = some (a % 4 * 16 + b / 16) :=
      sextetOf_b64char _ (by omega)
    have h3 : sextetOf (b64char (b % 16 * 4 + c / 64)) = some (b % 16 * 4 + c / 64) :=
      sextetOf_b64char _ (by omega)
    have h4 : sextetOf (b64char (c % 64)) = some (c % 64) := sextetOf_b64char _ (by omega)
    have e := b64decode_cons4 _ _ _ _ (b64encode rest) _ _ _ _ h1 h2 h3 h4
    rw [show b64encode (a :: b :: c :: rest) =
        b64char (a / 4) :: b64char (a % 4 * 16 + b / 16) ::
        b64char (b % 16 * 4 + c / 64) :: b64char (c % 64) :: b64encode rest from rfl, e, ih2]
    have e1 : a / 4 * 4 + (a % 4 * 16 + b / 16) / 16 = a := by omega
    have e2 : (a % 4 * 16 + b / 16) % 16 * 16 + (b % 16 * 4 + c / 64) / 4 = b := by omega
    have e3 : (b % 16 * 4 + c / 64) % 4 * 64 + c % 64 = c := by omega
    rw [e1, e2, e3]

theorem isJsSpace_b64char : ∀ s, s < 64 → isJsSpace (b64char s) = false := by decide

theorem isJsSpace_pad : isJsSpace '=' = false := by decide

theorem b64encode_no_space : ∀ b : List Nat, (∀ x ∈ b, x < 256) →
    (b64encode b).filter (fun c => !(isJsSpace c)) = b64encode b := by
  intro b
  induction b using b64encode.induct with
  | case1 => intro _; rfl
  | case2 a =>
    intro h
    have ha : a < 256 := h a (by simp)
    have g1 : isJsSpace (b64char (a / 4)) = false := isJsSpace_b64char _ (by omega)
    have g2 : isJsSpace (b64char (a % 4 * 16)) = false := isJsSpace_b64char _ (by omega)
    simp [b64encode, List.filter_cons, g1, g2, isJsSpace_pad]
  | case3 a b =>
    intro h
    have ha : a < 256 := h a (by simp)
    have hb : b < 256 := h b (by simp)
    have g1 : isJsSpace (b64char (a / 4)) = false := isJsSpace_b64char _ (by omega)
    have g2 : isJsSpace (b64char (a % 4 * 16 + b / 16)) = false := isJsSpace_b64char _ (by omega)
    have g3 : isJsSpace (b64char (b % 16 * 4)) = false := isJsSpace_b64char _ (by omega)
    simp [b64encode, List.filter_cons, g1, g2, g3, isJsSpace_pad]
  | case4 a b c rest ih =>
    intro h
    have ha : a < 256 := h a (by simp)
    have hb : b < 256 := h b (by simp)
    have hc : c < 256 := h c (by simp)
    have ih2 := ih (fun x hx => h x (by simp [hx]))
    have g1 : isJsSpace (b64char (a / 4)) = false := isJsSpace_b64char _ (by omega)
    have g2 : isJsSpace (b64char (a % 4 * 16 + b / 16)) = false := isJsSpace_b64char _ (by omega)
    have g3 : isJsSpace (b64char (b % 16 * 4 + c / 64)) = false := isJsSpace_b64char _ (by omega)
    have g4 : isJsSpace (b64char (c % 64)) = false := isJsSpace_b64char _ (by omega)
    simp [b64encode, List.filter_cons, g1, g2, g3, g4, ih2]

/-! Claim theorems. -/

/-- Claim C1: for every correlation id, at most one live pending request
exists (its key count in the registry is exactly 1 after `register` and 0
after removal) and at most one terminal resolution ever occurs: the `PUT`
handler's action trace deletes the id from the registry (first action)
before invoking the continuation (third action), a `register` followed by a
`deliver` hands the waiter exactly the submitted payload, and any second
delivery for the same id yields the not-found (false) outcome. -/
theorem c1_register_deliver_exactly_once (reg : Registry) (id img : String) (d : Nat)
    (q a : Option String) (su : Option Bool) (hid : id ≠ "") (himg : img ≠ "") :
    putHandler (rset id d reg)
        { requestId := some id, imageBase64 := some img, question := q,
          answer := a, stepCompleted := none, success := su } =
      (PutResp.okResp, rdel id (rset id d reg),
       [PutAction.deleteKey id, PutAction.clearTimer id,
        PutAction.resolveWith id { imageBase64 := some img, question := q, legacyAnswer := none }])
    ∧ (regKeys (rset id d reg)).count id = 1
    ∧ rget id (rdel id (rset id d reg)) = none
    ∧ (∀ b2 : PutBody, b2.requestId = some id → b2.stepCompleted = none →
        putHandler (rdel id (rset id d reg)) b2 =
          (PutResp.notFound, rdel id (rset id d reg), [])) := by
  refine ⟨?_, count_keys_rset id d reg, rget_rdel id (rset id d reg), ?_⟩
  · exact putHandler_resolved _ _ id d hid rfl rfl (truthy_some himg) (rget_rset id d reg)
  · intro b2 h1 h2
    exact putHandler_notFound _ _ id hid h1 h2 (rget_rdel id (rset id d reg))

/-- Witness for C1 at the concrete id `r1` and payload `IMG`. -/
theorem c1_register_deliver_exactly_once_witness :
    putHandler (rset "r1" 30 [])
        { requestId := some "r1", imageBase64 := some "IMG", question := some "Q",
          answer := none, stepCompleted := none, success := none } =
      (PutResp.okResp, rdel "r1" (rset "r1" 30 []),
       [PutAction.deleteKey "r1", PutAction.clearTimer "r1",
        PutAction.resolveWith "r1"
          { imageBase64 := some "IMG", question := some "Q", legacyAnswer := none }])
    ∧ putHandler (rdel "r1" (rset "r1" 30 []))
        { requestId := some "r1", imageBase64 := some "IMG", question := some "Q",
          answer := none, stepCompleted := none, success := none } =
        (PutResp.notFound, rdel "r1" (rset "r1" 30 []), []) :=
  ⟨(c1_register_deliver_exactly_once [] "r1" "IMG" 30 (some "Q") none none
      (by decide) (by decide)).1,
   (c1_register_deliver_exactly_once [] "r1" "IMG" 30 (some "Q") none none
      (by decide) (by decide)).2.2.2 _ rfl rfl⟩

/-- Claim C2: a waiter registered at clock `n` with timer `t` can only be
timed out at a clock `m ≥ n + t` (the timer never fires early), the firing
removes the id and rejects the waiter with the timeout error, any later
delivery for that id — and any delivery for a never-registered id — yields
the not-found outcome, surfaced as status 404 with error text
`No pending request`; the handler is a total function, so it never
throws. -/
theorem c2_timeout_then_unknown (reg : Registry) (id : String) (t n : Nat) (hid : id ≠ "") :
    (∀ m r msg, fireTimeout m id (rset id (n + t) reg) = (r, some msg) → n + t ≤ m)
    ∧ (∀ m, n + t ≤ m →
        fireTimeout m id (rset id (n + t) reg) =
          (rdel id (rset id (n + t) reg), some "capture_screenshot timed out"))
    ∧ (∀ b : PutBody, b.requestId = some id → b.stepCompleted = none →
        putHandler (rdel id (rset id (n + t) reg)) b =
          (PutResp.notFound, rdel id (rset id (n + t) reg), []))
    ∧ (∀ (reg2 : Registry) (b : PutBody) (id2 : String), b.requestId = some id2 → id2 ≠ "" →
        b.stepCompleted = none → rget id2 reg2 = none →
        putHandler reg2 b = (PutResp.notFound, reg2, []))
    ∧ putStatus PutResp.notFound = 404
    ∧ putErrorMsg PutResp.notFound = some "No pending request" := by
  refine ⟨?_, ?_, ?_, ?_, rfl, rfl⟩
  · intro m r msg hfire
    obtain ⟨d, hget, hdm⟩ := fireTimeout_not_early _ _ _ _ _ hfire
    rw [rget_rset] at hget
    have hd := Option.some.inj hget
    omega
  · intro m hm
    exact fireTimeout_fires _ _ _ _ (rget_rset id (n + t) reg) hm
  · intro b h1 h2
    exact putHandler_notFound _ _ id hid h1 h2 (rget_rdel id (rset id (n + t) reg))
  · intro reg2 b id2 h1 h2 h3 h4
    exact putHandler_notFound _ _ id2 h2 h1 h3 h4

/-- Witness for C2: the default 25000 ms timer fires at its deadline and a
late delivery for the id is answered not-found. -/
theorem c2_timeout_then_unknown_witness :
    fireTimeout 25000 "r1" (rset "r1" (0 + 25000) []) =
      (rdel "r1" (rset "r1" (0 + 25000) []), some "capture_screenshot timed out")
    ∧ putHandler (rdel "r1" (rset "r1" (0 + 25000) []))
        { requestId := some "r1", imageBase64 := none, question := none, answer := none,
          stepCompleted := none, success := none } =
        (PutResp.notFound, rdel "r1" (rset "r1" (0 + 25000) []), []) :=
  ⟨(c2_timeout_then_unknown [] "r1" 25000 0 (by decide)).2.1 25000 (by decide),
   (c2_timeout_then_unknown [] "r1" 25000 0 (by decide)).2.2.1 _ rfl rfl⟩

/-- Counterexample to claim C3 as stated: on a fully valid concrete
capture_screenshot invocation, the handler's event trace sends the
data-channel command first (index 0) and registers the waiter second
(index 1), so the waiter is NOT registered before the command is sent. -/
theorem c3_register_before_send_counterexample :
    captureScreenshotSetup
        { livekitApiKey := some "k", livekitApiSecret := some "s",
          livekitUrl := some "wss://lk.example", nextPublicLivekitUrl := none,
          openaiApiKey := none } "req_1"
        { roomName := some "room", targetIdentity := some "user", question := some "Q",
          timeoutMs := none, stepId := none }
        { callId := none, userId := none } =
      Except.ok ([HEvent.sendData "room" ["user"] (RoomCmd.captureScreenshot "Q" "req_1"),
                  HEvent.registerWaiter "req_1" 25000], 25000)
    ∧ registeredBeforeSent
        [HEvent.sendData "room" ["user"] (RoomCmd.captureScreenshot "Q" "req_1"),
         HEvent.registerWaiter "req_1" 25000] = false := ⟨rfl, rfl⟩

/-- Claim C3 (amended): for every successful capture_screenshot setup, the
command carrying the generated correlation id is sent over the Room
Transport first, and the waiter is registered under that same id
immediately afterwards (before the handler suspends awaiting delivery) —
the reverse of the order the claim states. -/
theorem c3_send_then_register (env : EnvConfig) (reqId : String) (params : ToolParams)
    (ctx : CallCtx) (evs : List HEvent) (t : Nat)
    (h : captureScreenshotSetup env reqId params ctx = Except.ok (evs, t)) :
    ∃ room target q, evs =
      [HEvent.sendData room [target] (RoomCmd.captureScreenshot q reqId),
       HEvent.registerWaiter reqId t] := by
  simp only [captureScreenshotSetup] at h
  by_cases hval : ¬(truthy (jsOrS params.roomName ctx.callId) = true ∧
      truthy params.question = true ∧ truthy (jsOrS params.targetIdentity ctx.userId) = true)
  · rw [if_pos hval] at h
    exact absurd h (by simp)
  · rw [if_neg hval] at h
    by_cases hlk : lkConfigured env = false
    · rw [if_pos hlk] at h
      exact absurd h (by simp)
    · rw [if_neg hlk] at h
      simp only [Except.ok.injEq, Prod.mk.injEq] at h
      obtain ⟨h1, h2⟩ := h
      exact ⟨_, _, _, by rw [← h1, h2]⟩

/-- Witness for the amended C3 at a concrete valid invocation. -/
theorem c3_send_then_register_witness :
    ∃ room target q,
      ([HEvent.sendData "room" ["user"] (RoomCmd.captureScreenshot "Q" "req_1"),
        HEvent.registerWaiter "req_1" 25000] : List HEvent) =
      [HEvent.sendData room [target] (RoomCmd.captureScreenshot q "req_1"),
       HEvent.registerWaiter "req_1" 25000] :=
  c3_send_then_register
    { livekitApiKey := some "k", livekitApiSecret := some "s",
      livekitUrl := some "wss://lk.example", nextPublicLivekitUrl := none,
      openaiApiKey := none } "req_1"
    { roomName := some "room", targetIdentity := some "user", question := some "Q",
      timeoutMs := none, stepId := none }
    { callId := none, userId := none } _ 25000 rfl

/-- Counterexample to claim C4 as stated: a capture_screenshot invocation
with every required field absent (after call-context fallback) is answered
with HTTP status 500, not the 400 the claim asserts. -/
theorem c4_validation_status_counterexample :
    dispatchStatus
      (dispatchTool
        { livekitApiKey := some "k", livekitApiSecret := some "s",
          livekitUrl := some "wss://lk.example", nextPublicLivekitUrl := none,
          openaiApiKey := none } "req_1" "capture_screenshot"
        { roomName := none, targetIdentity := none, question := none,
          timeoutMs := none, stepId := none }
        { callId := none, userId := none }) = 500
    ∧ (500 : Nat) ≠ 400 := by decide

/-- Claim C4 (amended): for every tool invocation of capture_screenshot or
markStepComplete in which a required field (`roomName`, `targetIdentity`,
or the tool-specific `question` / `stepId`) is still absent after falling
back to call-context derivation, the Router fails with the handler's
validation error, surfaced as an HTTP 500 response whose error text is
`Tool execution failed: ` followed by the validation message — not as the
400 the claim states — and no outbound command is sent. -/
theorem c4_validation_failure_500 (env : EnvConfig) (reqId name : String)
    (params : ToolParams) (ctx : CallCtx)
    (h : ((name = "capture_screenshot" ∨ name = "captureScreenshot") ∧
           ¬(truthy (jsOrS params.roomName ctx.callId) = true ∧ truthy params.question = true ∧
             truthy (jsOrS params.targetIdentity ctx.userId) = true))
         ∨ (name = "markStepComplete" ∧
           ¬(truthy (jsOrS params.roomName ctx.callId) = true ∧
             truthy (jsOrS params.targetIdentity ctx.userId) = true ∧ params.stepId ≠ none))) :
    ∃ m, dispatchTool env reqId name params ctx = DispatchResult.toolFailed m
    ∧ dispatchStatus (DispatchResult.toolFailed m) = 500
    ∧ dispatchErrorMsg (DispatchResult.toolFailed m) = some ("Tool execution failed: " ++ m)
    ∧ sentEvents (dispatchTool env reqId name params ctx) = [] := by
  rcases h with ⟨hname, hmiss⟩ | ⟨hname, hmiss⟩
  · have hset : captureScreenshotSetup env reqId params ctx =
        Except.error "roomName, question, and targetIdentity are required for capture_screenshot" := by
      unfold captureScreenshotSetup
      rw [if_pos hmiss]
    refine ⟨"roomName, question, and targetIdentity are required for capture_screenshot",
      ?_, rfl, rfl, ?_⟩
    · simp [dispatchTool, hname, hset]
    · simp [dispatchTool, hname, hset, sentEvents]
  · have hset : handleMarkStepComplete env reqId params ctx =
        Except.error "roomName, targetIdentity, and stepId are required for markStepComplete" := by
      simp only [handleMarkStepComplete]
      cases hstep : params.stepId with
      | none => rfl
      | some s =>
        rw [hstep] at hmiss
        have hcond : ¬(truthy (jsOrS params.roomName ctx.callId) = true ∧
            truthy (jsOrS params.targetIdentity ctx.userId) = true) := by
          intro hc
          exact hmiss ⟨hc.1, hc.2, by simp⟩
        simp [hcond]
    refine ⟨"roomName, targetIdentity, and stepId are required for markStepComplete",
      ?_, rfl, rfl, ?_⟩
    · simp [dispatchTool, hname, hset]
    · simp [dispatchTool, hname, hset, sentEvents]

/-- Witness for the amended C4: markStepComplete with no stepId fails with
the validation message at status 500. -/
theorem c4_validation_failure_500_witness :
    ∃ m, dispatchTool
        { livekitApiKey := some "k", livekitApiSecret := some "s",
          livekitUrl := some "wss://lk.example", nextPublicLivekitUrl := none,
          openaiApiKey := none } "req_1" "markStepComplete"
        { roomName := some "room", targetIdentity := some "user", question := none,
          timeoutMs := none, stepId := none }
        { callId := none, userId := none } = DispatchResult.toolFailed m
    ∧ dispatchStatus (DispatchResult.toolFailed m) = 500
    ∧ dispatchErrorMsg (DispatchResult.toolFailed m) = some ("Tool execution failed: " ++ m)
    ∧ sentEvents
        (dispatchTool
          { livekitApiKey := some "k", livekitApiSecret := some "s",
            livekitUrl := some "wss://lk.example", nextPublicLivekitUrl := none,
            openaiApiKey := none } "req_1" "markStepComplete"
          { roomName := some "room", targetIdentity := some "user", question := none,
            timeoutMs := none, stepId := none }
          { callId := none, userId := none }) = [] :=
  c4_validation_failure_500 _ "req_1" "markStepComplete" _ _ (Or.inr ⟨rfl, by decide⟩)

/-- Counterexample to claim C5 as stated: with no inference credential, a
payload beginning with `data:` that fails the strict data-URL pattern is
not rejected with the unsupported-format error — the mock answer is
returned, because the no-credential fallback runs before normalization. -/
theorem c5_mock_precedes_normalization_counterexample :
    hasDataScheme "data:bogus" = true
    ∧ parseDataUrl "data:bogus" = none
    ∧ processScreenshot none (some "Q")
        { imageBase64 := some "data:bogus", question := none, legacyAnswer := none } =
        VisionOutcome.ret "Mock vision answer to: Q" := by decide

/-- Claim C5 (amended): for every delivered screenshot payload whose
imageBase64 begins with `data:` but does not match the strict
`data:<mime>;base64,<payload>` pattern, the vision adapter fails with the
`Unsupported data URL format` error when an inference credential IS
configured; with no credential the mock fallback (which the code checks
before normalization steps 1-4, not after) returns the mock answer
instead. -/
theorem c5_unsupported_format_with_credential (key : String) (q : Option String)
    (data : ScreenshotData) (img : String) (hkey : key ≠ "")
    (himg : data.imageBase64 = some img) (hds : hasDataScheme img = true)
    (hparse : parseDataUrl img = none) :
    processScreenshot (some key) q data = VisionOutcome.failed "Unsupported data URL format" := by
  have hne : img ≠ "" := by
    intro he
    rw [he] at hds
    simp [hasDataScheme] at hds
  simp [processScreenshot, himg, truthy_some hne, truthy_some hkey, hds, hparse]

/-- Witness for the amended C5 at the malformed payload `data:bogus`. -/
theorem c5_unsupported_format_with_credential_witness :
    processScreenshot (some "sk-key") (some "Q")
        { imageBase64 := some "data:bogus", question := none, legacyAnswer := none } =
      VisionOutcome.failed "Unsupported data URL format" :=
  c5_unsupported_format_with_credential "sk-key" (some "Q") _ "data:bogus"
    (by decide) rfl (by decide) (by decide)

/-- Claim C6: with no inference credential configured, for every non-empty
question q and any delivered payload that does not take the legacy-answer
passthrough (the spec's backward-compatibility rule), the screenshot
handler returns exactly `Mock vision answer to: ` followed by q. -/
theorem c6_mock_vision_answer (key : Option String) (q : String) (data : ScreenshotData)
    (hkey : truthy key = false) (hq : q ≠ "")
    (hleg : ¬(truthy data.imageBase64 = false ∧ truthy data.legacyAnswer = true)) :
    processScreenshot key (some q) data = VisionOutcome.ret ("Mock vision answer to: " ++ q) := by
  simp only [processScreenshot, effQuestion, truthy_some hq, if_pos, if_neg hleg, hkey]
  simp

/-- Witness for C6: the spec's own example question yields exactly
`Mock vision answer to: What is this?`. -/
theorem c6_mock_vision_answer_witness :
    processScreenshot none (some "What is this?")
        { imageBase64 := some "x", question := none, legacyAnswer := none } =
      VisionOutcome.ret "Mock vision answer to: What is this?" :=
  c6_mock_vision_answer none "What is this?" _ rfl (by decide) (by decide)

/-- Claim C7: for every non-empty byte buffer b, encoding b to base64,
passing the result through the normalization step (whitespace stripping,
base64 decode, re-encode), and decoding the resulting payload yields
exactly b. -/
theorem c7_base64_normalization_roundtrip (b : List Nat) (hb : ∀ x ∈ b, x < 256)
    (hne : b ≠ []) :
    Option.map b64decode (normalizePayload (b64encode b)) = some b := by
  have hs := b64encode_no_space b hb
  have hr := b64_roundtrip b hb
  simp only [normalizePayload, hs, hr]
  cases b with
  | nil => exact absurd rfl hne
  | cons x xs => simp [b64_roundtrip (x :: xs) hb]

/-- Witness for C7 at the two-byte buffer `[104, 105]`. -/
theorem c7_base64_normalization_roundtrip_witness :
    Option.map b64decode (normalizePayload (b64encode [104, 105])) = some [104, 105] :=
  c7_base64_normalization_roundtrip [104, 105] (by decide) (by decide)

/-- Claim C8: every valid markStepComplete invocation with stepId s sends
exactly one outbound `mark_step_complete` command carrying s and the
generated request id, addressed to the single resolved target identity,
returns the synchronous confirmation string acknowledging step s, and
registers no pending request in the correlator registry. -/
theorem c8_mark_step_complete_single_send (env : EnvConfig) (reqId : String)
    (params : ToolParams) (ctx : CallCtx) (s : Int)
    (hs : params.stepId = some s) (hlk : lkConfigured env = true)
    (hr : truthy (jsOrS params.roomName ctx.callId) = true)
    (ht : truthy (jsOrS params.targetIdentity ctx.userId) = true) :
    dispatchTool env reqId "markStepComplete" params ctx =
      DispatchResult.completed
        [HEvent.sendData ((jsOrS params.roomName ctx.callId).getD "")
           [(jsOrS params.targetIdentity ctx.userId).getD ""]
           (RoomCmd.markStepComplete s reqId)]
        ("Step " ++ toString s ++ " marked complete")
    ∧ sentEvents (dispatchTool env reqId "markStepComplete" params ctx) =
        [HEvent.sendData ((jsOrS params.roomName ctx.callId).getD "")
           [(jsOrS params.targetIdentity ctx.userId).getD ""]
           (RoomCmd.markStepComplete s reqId)]
    ∧ registeredIds (dispatchTool env reqId "markStepComplete" params ctx) = [] := by
  have hm := markStep_ok env reqId params ctx s hs hlk hr ht
  refine ⟨?_, ?_, ?_⟩
  · simp [dispatchTool, hm]
  · simp [dispatchTool, hm, sentEvents, isSendEvent]
  · simp [dispatchTool, hm, registeredIds, regIdOf]

/-- Witness for C8 at stepId 2, matching the spec example. -/
theorem c8_mark_step_complete_single_send_witness :
    dispatchTool
        { livekitApiKey := some "k", livekitApiSecret := some "s",
          livekitUrl := some "wss://lk.example", nextPublicLivekitUrl := none,
          openaiApiKey := none } "req_1" "markStepComplete"
        { roomName := some "room", targetIdentity := some "user", question := none,
          timeoutMs := none, stepId := some 2 }
        { callId := none, userId := none } =
      DispatchResult.completed
        [HEvent.sendData "room" ["user"] (RoomCmd.markStepComplete 2 "req_1")]
        "Step 2 marked complete" :=
  (c8_mark_step_complete_single_send _ "req_1" _ _ 2 rfl (by decide) (by decide) (by decide)).1

/-- Claim C9: every tool invocation whose name is outside the enumerated
set yields the unknown-tool response at status 400 with error text
`Unknown tool: <name>`, sends no outbound command, and registers nothing —
it never silently no-ops. -/
theorem c9_unknown_tool_rejected (env : EnvConfig) (reqId name : String)
    (params : ToolParams) (ctx : CallCtx)
    (h1 : name ≠ "capture_screenshot") (h2 : name ≠ "captureScreenshot")
    (h3 : name ≠ "markStepComplete") :
    dispatchTool env reqId name params ctx = DispatchResult.unknownTool name
    ∧ dispatchStatus (DispatchResult.unknownTool name) = 400
    ∧ dispatchErrorMsg (DispatchResult.unknownTool name) = some ("Unknown tool: " ++ name)
    ∧ sentEvents (dispatchTool env reqId name params ctx) = []
    ∧ registeredIds (dispatchTool env reqId name params ctx) = [] := by
  have hu := dispatch_unknown env reqId name params ctx h1 h2 h3
  exact ⟨hu, rfl, rfl, by rw [hu]; rfl, by rw [hu]; rfl⟩

/-- Witness for C9 at the spec's example name `doSomethingElse`. -/
theorem c9_unknown_tool_rejected_witness :
    dispatchTool
        { livekitApiKey := some "k", livekitApiSecret := some "s",
          livekitUrl := some "wss://lk.example", nextPublicLivekitUrl := none,
          openaiApiKey := none } "req_1" "doSomethingElse"
        { roomName := some "room", targetIdentity := some "user", question := none,
          timeoutMs := none, stepId := none }
        { callId := none, userId := none } = DispatchResult.unknownTool "doSomethingElse"
    ∧ dispatchStatus (DispatchResult.unknownTool "doSomethingElse") = 400 :=
  ⟨(c9_unknown_tool_rejected _ "req_1" "doSomethingElse" _ _
      (by decide) (by decide) (by decide)).1,
   (c9_unknown_tool_rejected
      { livekitApiKey := some "k", livekitApiSecret := some "s",
        livekitUrl := some "wss://lk.example", nextPublicLivekitUrl := none,
        openaiApiKey := none } "req_1" "doSomethingElse"
      { roomName := some "room", targetIdentity := some "user", question := none,
        timeoutMs := none, stepId := none }
      { callId := none, userId := none }
      (by decide) (by decide) (by decide)).2.1⟩

/-- Claim C10: a result submission for a live correlation id that carries
no stepCompleted field, no truthy imageBase64 and no non-empty answer is
still accepted with the 200 success response: the pending entry is
removed and the waiter resolved with empty imageBase64 and empty
legacyAnswer; the absent data then surfaces in the screenshot handler as
the mock answer when no credential is configured, or as the
missing-imageBase64 tool failure when one is — never as a rejection of the
delivery itself. -/
theorem c10_empty_result_accepted (reg : Registry) (id : String) (d : Nat) (b : PutBody)
    (q k : String) (hid : id ≠ "") (hget : rget id reg = some d)
    (hrid : b.requestId = some id) (hstep : b.stepCompleted = none)
    (himg : truthy b.imageBase64 = false) (hans : truthy b.answer = false)
    (hq : q ≠ "") (hk : k ≠ "") :
    putHandler reg b = (PutResp.okResp, rdel id reg,
      [PutAction.deleteKey id, PutAction.clearTimer id,
       PutAction.resolveWith id
         { imageBase64 := some "", question := b.question, legacyAnswer := some "" }])
    ∧ putStatus PutResp.okResp = 200
    ∧ processScreenshot none (some q)
        { imageBase64 := some "", question := b.question, legacyAnswer := some "" } =
        VisionOutcome.ret ("Mock vision answer to: " ++ q)
    ∧ processScreenshot (some k) (some q)
        { imageBase64 := some "", question := b.question, legacyAnswer := some "" } =
        VisionOutcome.failed "Missing imageBase64 in screenshot submission" := by
  refine ⟨?_, rfl, ?_, ?_⟩
  · have hemp : strOr b.answer "" = "" := by simp [strOr, hans]
    simp [putHandler, hrid, hstep, truthy_some hid, hget, himg, hemp]
  · simp [processScreenshot, effQuestion, truthy, hq]
  · simp [processScreenshot, effQuestion, truthy, hq, hk]

/-- Witness for C10 at a concrete live id and an empty submission body. -/
theorem c10_empty_result_accepted_witness :
    putHandler [("r1", 30)]
        { requestId := some "r1", imageBase64 := none, question := none, answer := none,
          stepCompleted := none, success := none } =
      (PutResp.okResp, rdel "r1" [("r1", 30)],
       [PutAction.deleteKey "r1", PutAction.clearTimer "r1",
        PutAction.resolveWith "r1"
          { imageBase64 := some "", question := none, legacyAnswer := some "" }])
    ∧ processScreenshot none (some "Q")
        { imageBase64 := some "", question := none, legacyAnswer := some "" } =
        VisionOutcome.ret "Mock vision answer to: Q" :=
  ⟨(c10_empty_result_accepted [("r1", 30)] "r1" 30
      { requestId := some "r1", imageBase64 := none, question := none, answer := none,
        stepCompleted := none, success := none } "Q" "k"
      (by decide) (by decide) rfl rfl rfl rfl (by decide) (by decide)).1,
   (c10_empty_result_accepted [("r1", 30)] "r1" 30
      { requestId := some "r1", imageBase64 := none, question := none, answer := none,
        stepCompleted := none, success := none } "Q" "k"
      (by decide) (by decide) rfl rfl rfl rfl (by decide) (by decide)).2.2.1⟩
